import Mathlib

/-!
# videograbber-example: frame grabber client

A shallow embedding of `main.c`: the configuration loader `readIntFromFile`,
the aspect corrector `zoomWidth`, the two acquisition paths `mapSingleFrame`
and `readSingleFrame`, and the orchestrator `main`.

* C `int` values are mathematical integers reduced to 32-bit two's complement
  (`wrapInt`) after every arithmetic operation of the source.
* `/` of C is truncating division (`Int.tdiv`); a division by zero and the
  division of `INT_MIN` by `-1` have no result and stop the program (`Fault`).
* System and library calls (`open`, `ioctl`, `mmap`, `malloc`, `read`, `fopen`,
  `fscanf`) are answered by an environment record; every call the source makes
  is appended to a trace of `Event`s, in program order.
-/

namespace VideoGrabber

/-! ## Machine integers -/

/-- Smallest value of a 32-bit `int`. -/
def INT_MIN : Int := -2147483648

/-- Largest value of a 32-bit `int`. -/
def INT_MAX : Int := 2147483647

/-- Reduction of a mathematical integer to 32-bit two's complement. -/
def wrapInt (x : Int) : Int := (x + 2147483648) % 4294967296 - 2147483648

/-- Representable as a 32-bit `int`. -/
def isInt (x : Int) : Prop := INT_MIN ≤ x ∧ x ≤ INT_MAX

instance (x : Int) : Decidable (isInt x) := by unfold isInt; infer_instance

/-- Conversion of an `int` to a `size_t` of the given width. -/
def toSize (bits : Nat) (x : Int) : Nat := (x % (2 : Int) ^ bits).toNat

/-! ## Aspect corrector -/

/-- The two ways in which an `int` division has no result. -/
inductive Fault where
  /-- The divisor is 0. -/
  | divByZero
  /-- The quotient of `INT_MIN` by `-1` is not an `int`. -/
  | divOverflow
  deriving DecidableEq, Repr

deriving instance DecidableEq for Except

/-- The operator `/` of C on two `int` operands. -/
def intDiv (a b : Int) : Except Fault Int :=
  if b = 0 then .error .divByZero
  else if a = INT_MIN ∧ b = -1 then .error .divOverflow
  else .ok (a.tdiv b)

/-- Embedding of `zoomWidth` (lines 191-199). -/
def zoomWidth (width height aspect : Int) : Except Fault Int :=
  match intDiv (wrapInt (256 * height)) width with
  | .error f => .error f
  | .ok calculatedAspect =>
    if aspect = calculatedAspect then .ok width
    else intDiv (wrapInt (256 * height)) aspect

/-! ## Device interface and observable events -/

/-- The pixel formats of `enum videograbber_pixelformat` (lines 13-18). -/
inductive videograbber_pixelformat where
  | VIDEOGRABBER_FORMAT_RGB888
  | VIDEOGRABBER_FORMAT_BGR888
  | VIDEOGRABBER_FORMAT_ABGR8888
  deriving DecidableEq, Repr

/-- The integer value of an enumerator. -/
def videograbber_pixelformat.toInt : videograbber_pixelformat → Int
  | .VIDEOGRABBER_FORMAT_RGB888 => 0
  | .VIDEOGRABBER_FORMAT_BGR888 => 1
  | .VIDEOGRABBER_FORMAT_ABGR8888 => 2

/-- The request of the setup control call, `struct videograbber_setup_t` (lines 20-26). -/
structure videograbber_setup_t where
  out_width : Int
  out_height : Int
  out_stride : Int
  out_format : Int
  deriving DecidableEq, Repr

/-- The frame descriptor, `struct videograbber_vframe_t` (lines 28-33). -/
structure videograbber_vframe_t where
  canvas_phys_addr : Fin 3 → Nat
  width : Fin 3 → Int
  stride : Fin 3 → Int
  height : Fin 3 → Int

/-- An argument of a formatted print. -/
inductive Arg where
  | str (s : String)
  | int (i : Int)
  deriving DecidableEq, Repr

/-- One call made by the program, with its arguments and its answer. -/
inductive Event where
  /-- Call `open(path, O_RDWR)`, which returned `fd`. -/
  | opened (path : String) (fd : Int)
  /-- Call `close(fd)`. -/
  | closed (fd : Int)
  /-- Call `ioctl(fd, VIDEOGRABBER_IOC_SETUP, &setup)`, which returned `ret`. -/
  | setupCall (fd : Int) (setup : videograbber_setup_t) (ret : Int)
  /-- Call `ioctl(fd, VIDEOGRABBER_IOC_GET_FRAME, &vf)`, which returned `ret`. -/
  | getFrame (fd : Int) (ret : Int)
  /-- Call `mmap(NULL, length, PROT_READ, MAP_SHARED, fd, offset)`; `none` is `MAP_FAILED`. -/
  | mapped (length : Nat) (fd : Int) (offset : Nat) (addr : Option Nat)
  /-- Call `munmap(addr, length)`. -/
  | unmapped (addr : Nat) (length : Nat)
  /-- Call `malloc(size)`, which returned `ptr` (`0` is `NULL`). -/
  | allocated (size : Nat) (ptr : Nat)
  /-- Call `read(fd, ptr, count)`, which returned `ret`. -/
  | readInto (fd : Int) (ptr : Nat) (count : Nat) (ret : Int)
  /-- Call `free(ptr)`. -/
  | freed (ptr : Nat)
  /-- Call `fopen(path, mode)`; `ok` tells whether a stream was returned. -/
  | fopened (path : String) (mode : String) (ok : Bool)
  /-- Call `fscanf(file, fmt, out)` on the stream of `path`; `stored` is the converted value. -/
  | scanned (path : String) (fmt : String) (stored : Option Int)
  /-- Call `fwrite(src, size, 1, dump)` on the stream of `path`. -/
  | written (path : String) (src : Nat) (size : Nat)
  /-- Call `fclose` on the stream of `path`. -/
  | fclosed (path : String)
  /-- Call `fprintf(stderr, fmt, args)`. -/
  | errLine (fmt : String) (args : List Arg)
  /-- Call `printf(fmt, args)`. -/
  | outLine (fmt : String) (args : List Arg)
  deriving DecidableEq, Repr

/-- The configuration file boundary: which paths `fopen(path, "r")` can open, with their text,
and what `fscanf` converts from a text under a format (`none`: no conversion, nothing stored). -/
structure FileSys where
  fopenRead : String → Option String
  fscanf : String → String → Option Int

/-- The answers of the device and of the C library to the calls of one acquisition path. -/
structure Session where
  /-- Result of `open("/dev/videograbber", O_RDWR)`. -/
  openRet : Int
  /-- Result of the setup control call. -/
  setupRet : Int
  /-- Result of the get-frame control call. -/
  getFrameRet : Int
  /-- Descriptor filled in by the get-frame control call. -/
  vf : videograbber_vframe_t
  /-- Result of `mmap`; `none` is `MAP_FAILED`. -/
  mmapRet : Option Nat
  /-- Result of `malloc`; `0` is `NULL`. -/
  mallocRet : Nat
  /-- Result of the blocking `read`. -/
  readRet : Int
  /-- Whether `fopen(path, "wb")` of the output file succeeds. -/
  dumpOpens : Bool
  /-- Width of `size_t` in bits. -/
  sizeBits : Nat

/-- What a call of an acquisition path leaves behind: its return value and its calls. -/
structure Outcome where
  ret : Int
  trace : List Event
  deriving DecidableEq, Repr

/-! ## Configuration loader -/

/-- What a call of `readIntFromFile` leaves behind: return value, output slot, calls. -/
structure LoadOutcome where
  ret : Int
  out : Int
  trace : List Event
  deriving DecidableEq, Repr

/-- Embedding of `readIntFromFile` (lines 35-51); `out` is the pre-call value of `*out`. -/
def readIntFromFile (fs : FileSys) (path : String) (base : Int) (out : Int) : LoadOutcome :=
  match fs.fopenRead path with
  | none => ⟨-1, out, [.fopened path "r" false]⟩
  | some text =>
    if base = 10 then
      ⟨0, (fs.fscanf "%d" text).getD out,
        [.fopened path "r" true, .scanned path "%d" (fs.fscanf "%d" text), .fclosed path]⟩
    else if base = 16 then
      ⟨0, (fs.fscanf "%x" text).getD out,
        [.fopened path "r" true, .scanned path "%x" (fs.fscanf "%x" text), .fclosed path]⟩
    else
      ⟨-1, out, [.fopened path "r" true]⟩

/-! ## Mapped-frame acquisition path -/

/-- The code at label `err` of `mapSingleFrame` (lines 117-121). -/
def mapSingleFrameErr (fd ret : Int) (trace : List Event) : Outcome :=
  if fd ≥ 0 then ⟨ret, trace ++ [.closed fd]⟩ else ⟨ret, trace⟩

/-- Embedding of `mapSingleFrame` (lines 65-122). -/
def mapSingleFrame (env : Session) (path : String) (width height : Int) : Outcome :=
  let fd := env.openRet
  let t0 : List Event := [.opened "/dev/videograbber" fd]
  if fd < 0 then
    ⟨-1, t0 ++ [.errLine "%s: failed to open device (%m)\n" [.str "mapSingleFrame"]]⟩
  else
    let setup : videograbber_setup_t :=
      ⟨width, height, wrapInt (width * 4),
        videograbber_pixelformat.VIDEOGRABBER_FORMAT_ABGR8888.toInt⟩
    let t1 := t0 ++ [.setupCall fd setup env.setupRet]
    if env.setupRet < 0 then
      mapSingleFrameErr fd (-1)
        (t1 ++ [.errLine "%s: can't setup videograbber (%m)\n" [.str "mapSingleFrame"]])
    else
      let t2 := t1 ++ [.getFrame fd env.getFrameRet]
      if env.getFrameRet ≠ 0 then
        mapSingleFrameErr fd (-1)
          (t2 ++ [.errLine "%s: can't get current frame (%m)\n" [.str "mapSingleFrame"]])
      else
        let mapLength := toSize env.sizeBits (wrapInt (env.vf.stride 0 * env.vf.height 0))
        let t3 := t2 ++ [.mapped mapLength fd (env.vf.canvas_phys_addr 0) env.mmapRet]
        match env.mmapRet with
        | none =>
          mapSingleFrameErr fd (-1)
            (t3 ++ [.errLine "%s: error while mapping src buffer (%m)\n" [.str "mapSingleFrame"]])
        | some srcAddr =>
          let t4 := t3 ++ [.fopened path "wb" env.dumpOpens]
          if !env.dumpOpens then
            mapSingleFrameErr fd (-1)
              (t4 ++ [.errLine "%s: can't open output file %s (%m)\n"
                [.str path, .str "mapSingleFrame"]])
          else
            mapSingleFrameErr fd 0
              (t4 ++ [.written path srcAddr mapLength, .fclosed path,
                .unmapped srcAddr mapLength, .closed fd])

/-! ## Buffered-read acquisition path -/

/-- The code at label `err` of `readSingleFrame` (lines 182-188). -/
def readSingleFrameErr (fd : Int) (framebuffer : Nat) (ret : Int) (trace : List Event) :
    Outcome :=
  let t1 := if fd ≥ 0 then trace ++ [.closed fd] else trace
  let t2 := if framebuffer ≠ 0 then t1 ++ [.freed framebuffer] else t1
  ⟨ret, t2⟩

/-- Embedding of `readSingleFrame` (lines 132-189). -/
def readSingleFrame (env : Session) (path : String) (width height : Int) : Outcome :=
  let fd := env.openRet
  let t0 : List Event := [.opened "/dev/videograbber" fd]
  if fd < 0 then
    ⟨-1, t0 ++ [.errLine "%s: failed to open device (%m)\n" [.str "readSingleFrame"]]⟩
  else
    let setup : videograbber_setup_t :=
      ⟨width, height, -1, videograbber_pixelformat.VIDEOGRABBER_FORMAT_ABGR8888.toInt⟩
    let t1 := t0 ++ [.setupCall fd setup env.setupRet]
    if env.setupRet < 0 then
      readSingleFrameErr fd 0 (-1)
        (t1 ++ [.errLine "%s: can't setup videograbber (%m)\n" [.str "readSingleFrame"]])
    else
      let dump_size := wrapInt (wrapInt (4 * width) * height)
      let framebuffer := env.mallocRet
      let t2 := t1 ++ [.allocated (toSize env.sizeBits dump_size) framebuffer]
      if framebuffer = 0 then
        readSingleFrameErr fd framebuffer (-1)
          (t2 ++ [.errLine "%s: failed to malloc framebuffer (%m)\n" [.str "readSingleFrame"]])
      else
        let t3 := t2 ++ [.readInto fd framebuffer (toSize env.sizeBits dump_size) env.readRet]
        if env.readRet ≤ 0 then
          readSingleFrameErr fd framebuffer (-1)
            (t3 ++ [.errLine "%s: error while read (%m)\n" [.str "readSingleFrame"]])
        else
          let t4 := t3 ++ [.fopened path "wb" env.dumpOpens]
          if !env.dumpOpens then
            readSingleFrameErr fd framebuffer (-1)
              (t4 ++ [.errLine "%s: can't open output file %s (%m)\n"
                [.str path, .str "readSingleFrame"]])
          else
            readSingleFrameErr fd framebuffer 0
              (t4 ++ [.written path framebuffer (toSize env.sizeBits dump_size),
                .fclosed path])

/-! ## Orchestrator -/

/-- What a run of `main` leaves behind: the exit status (`none` when the run stops at a
division without result) and its calls. -/
structure MainOutcome where
  exit : Option Int
  trace : List Event
  deriving DecidableEq, Repr

/-- The lines `main` prints after the mapped-frame path (lines 217-223). -/
def mapReport (ret : Int) (path1 : String) (width height : Int) : List Event :=
  if ret = 0 then
    [.outLine "Mapping video frame into %s\n" [.str path1],
     .outLine "Verify: Upload file to www.rawpixels.net, set width to %d, height to %d and predefined format to RGB32\n\n"
       [.int width, .int height]]
  else [.outLine "Mapping failed\n" []]

/-- The lines `main` prints after the buffered-read path (lines 225-231). -/
def readReport (ret : Int) (path2 : String) (width height : Int) : List Event :=
  if ret = 0 then
    [.outLine "Read video frame into %s\n" [.str path2],
     .outLine "Verify: Upload file to www.rawpixels.net, set width to %d, height to %d and predefined format to RGB32\n\n"
       [.int width, .int height]]
  else [.outLine "Reading failed\n" []]

/-- The three loads at the start of `main` (lines 205-213): the loaded width, height and
aspect, and the calls made. -/
def loadConfig (fs : FileSys) : Int × Int × Int × List Event :=
  let w := readIntFromFile fs "/sys/class/video/frame_width" 10 1280
  let h := readIntFromFile fs "/sys/class/video/frame_height" 10 720
  let a := readIntFromFile fs "/sys/class/video/frame_aspect_ratio" 16 0x90
  (w.out, h.out, a.out, w.trace ++ h.trace ++ a.trace)

/-- Embedding of `main` (lines 201-234); `mapEnv` and `readEnv` answer the calls of the
first and of the second acquisition path. -/
def main (fs : FileSys) (mapEnv readEnv : Session) : MainOutcome :=
  let path1 := "/tmp/dump1.abgr8888"
  let path2 := "/tmp/dump2.abgr8888"
  match loadConfig fs with
  | (width0, height, aspect, t0) =>
    match zoomWidth width0 height aspect with
    | .error _ => ⟨none, t0⟩
    | .ok width =>
      let m := mapSingleFrame mapEnv path1 width height
      let r := readSingleFrame readEnv path2 width height
      ⟨some 0, t0 ++ m.trace ++ mapReport m.ret path1 width height
        ++ r.trace ++ readReport r.ret path2 width height⟩

/-! ## Observations on traces -/

/-- Number of `close(fd)` calls in a trace. -/
def closeCount (fd : Int) (t : List Event) : Nat := t.count (.closed fd)

/-- Number of `free(ptr)` calls in a trace. -/
def freeCount (ptr : Nat) (t : List Event) : Nat := t.count (.freed ptr)

/-- Number of successful `malloc` calls in a trace. -/
def allocCount (t : List Event) : Nat :=
  t.countP fun e => match e with
    | .allocated _ ptr => decide (ptr ≠ 0)
    | _ => false

/-- Number of `mmap` calls in a trace that established a mapping. -/
def mapCount (t : List Event) : Nat :=
  t.countP fun e => match e with
    | .mapped _ _ _ (some _) => true
    | _ => false

/-- Number of `munmap` calls in a trace. -/
def unmapCount (t : List Event) : Nat :=
  t.countP fun e => match e with
    | .unmapped _ _ => true
    | _ => false

/-- Number of successful `open` calls in a trace. -/
def openCount (t : List Event) : Nat :=
  t.countP fun e => match e with
    | .opened _ fd => decide (0 ≤ fd)
    | _ => false

/-- Number of successful `fopen` calls in a trace. -/
def fopenCount (t : List Event) : Nat :=
  t.countP fun e => match e with
    | .fopened _ _ ok => ok
    | _ => false

/-- Number of `fclose` calls in a trace. -/
def fcloseCount (t : List Event) : Nat :=
  t.countP fun e => match e with
    | .fclosed _ => true
    | _ => false

/-- Whether a trace holds a get-frame control call. -/
def issuesGetFrame (t : List Event) : Bool :=
  t.any fun e => match e with
    | .getFrame _ _ => true
    | _ => false

/-- Whether a trace holds an `mmap` call. -/
def issuesMmap (t : List Event) : Bool :=
  t.any fun e => match e with
    | .mapped _ _ _ _ => true
    | _ => false

/-- Whether a trace holds an `fopen` of the given path for writing. -/
def opensDump (path : String) (t : List Event) : Bool :=
  t.any fun e => match e with
    | .fopened p mode _ => decide (p = path ∧ mode = "wb")
    | _ => false

/-- Whether a trace holds an `fwrite`. -/
def writesDump (t : List Event) : Bool :=
  t.any fun e => match e with
    | .written _ _ _ => true
    | _ => false

/-- Number of `close` calls in a trace, on any descriptor. -/
def closeCalls (t : List Event) : Nat :=
  t.countP fun e => match e with
    | .closed _ => true
    | _ => false

/-- Number of `free` calls in a trace, on any pointer. -/
def freeCalls (t : List Event) : Nat :=
  t.countP fun e => match e with
    | .freed _ => true
    | _ => false

/-! ## Example environments -/

/-- Value of a digit character in bases up to 16. -/
def digitValue (c : Char) : Option Nat :=
  if '0' ≤ c ∧ c ≤ '9' then some (c.toNat - 48)
  else if 'a' ≤ c ∧ c ≤ 'f' then some (c.toNat - 87)
  else if 'A' ≤ c ∧ c ≤ 'F' then some (c.toNat - 55)
  else none

/-- The number written by the longest run of digits of `base` that starts the text;
`none` when the text starts with no such digit. -/
def scanDigits (base : Nat) : List Char → Option Nat → Option Nat
  | [], acc => acc
  | c :: cs, acc =>
    match digitValue c with
    | some d => if d < base then scanDigits base cs (some (acc.getD 0 * base + d)) else acc
    | none => acc

/-- A plain `fscanf` for unsigned numbers: `%d` reads decimal, `%x` hexadecimal. -/
def exampleScan (fmt text : String) : Option Int :=
  if fmt = "%d" then (scanDigits 10 text.data none).map Int.ofNat
  else if fmt = "%x" then (scanDigits 16 text.data none).map Int.ofNat
  else none

/-- A file system on which none of the three configuration files exists. -/
def noFiles : FileSys where
  fopenRead := fun _ => none
  fscanf := exampleScan

/-- A file system on which only the aspect file exists, with the text `0`. -/
def zeroAspectFiles : FileSys where
  fopenRead := fun p => if p = "/sys/class/video/frame_aspect_ratio" then some "0" else none
  fscanf := exampleScan

/-- A file system that describes a 720x576 source with aspect 0x90. -/
def pal43Files : FileSys where
  fopenRead := fun p =>
    if p = "/sys/class/video/frame_width" then some "720"
    else if p = "/sys/class/video/frame_height" then some "576"
    else if p = "/sys/class/video/frame_aspect_ratio" then some "90"
    else none
  fscanf := exampleScan

/-- A descriptor of one packed 1280x720 frame with a stride of 5120 bytes. -/
def exampleFrame : videograbber_vframe_t where
  canvas_phys_addr := fun _ => 1056964608
  width := fun _ => 1280
  stride := fun _ => 5120
  height := fun _ => 720

/-- A session in which every call succeeds and the read is complete. -/
def okSession : Session where
  openRet := 3
  setupRet := 0
  getFrameRet := 0
  vf := exampleFrame
  mmapRet := some 4096
  mallocRet := 8192
  readRet := 3686400
  dumpOpens := true
  sizeBits := 64

/-- A session in which the setup control call fails. -/
def setupFailSession : Session where
  openRet := 3
  setupRet := -1
  getFrameRet := 0
  vf := exampleFrame
  mmapRet := some 4096
  mallocRet := 8192
  readRet := 3686400
  dumpOpens := true
  sizeBits := 64

/-- A session in which the output file cannot be opened. -/
def noDumpSession : Session where
  openRet := 3
  setupRet := 0
  getFrameRet := 0
  vf := exampleFrame
  mmapRet := some 4096
  mallocRet := 8192
  readRet := 3686400
  dumpOpens := false
  sizeBits := 64

/-- A session in which the blocking read returns a single byte. -/
def shortReadSession : Session where
  openRet := 3
  setupRet := 0
  getFrameRet := 0
  vf := exampleFrame
  mmapRet := some 4096
  mallocRet := 8192
  readRet := 1
  dumpOpens := true
  sizeBits := 64

/-- A session in which the blocking read returns no byte. -/
def zeroReadSession : Session where
  openRet := 3
  setupRet := 0
  getFrameRet := 0
  vf := exampleFrame
  mmapRet := some 4096
  mallocRet := 8192
  readRet := 0
  dumpOpens := true
  sizeBits := 64

example : zoomWidth 1280 720 144 = .ok 1280 := by decide
example : zoomWidth 1920 1080 144 = .ok 1920 := by decide
example : zoomWidth 720 576 144 = .ok 1024 := by decide
example : zoomWidth 257 1 0 = .ok 257 := by decide
example : zoomWidth 1280 720 0 = .error .divByZero := by decide
example : zoomWidth 0 720 144 = .error .divByZero := by decide
example : zoomWidth 1 1 100 = .ok 2 := by decide
example : zoomWidth 1 8388608 5 = .ok (-429496729) := by decide
example : zoomWidth 1 8388608 (-1) = .error .divOverflow := by decide

example : exampleScan "%d" "1920" = some 1920 := by decide
example : exampleScan "%x" "5a" = some 90 := by decide
example : (readIntFromFile pal43Files "/sys/class/video/frame_width" 10 1280).out = 720 := by
  decide
example : (main pal43Files okSession okSession).exit = some 0 := by decide
example : (mapSingleFrame okSession "/tmp/dump1.abgr8888" 1280 720).ret = 0 := by decide

/-! ## Arithmetic lemmas -/

theorem wrapInt_eq_self {x : Int} (hlo : -2147483648 ≤ x) (hhi : x ≤ 2147483647) :
    wrapInt x = x := by
  unfold wrapInt
  omega

theorem tdiv_pos_bounds {n a : Int} (hn : 0 ≤ n) (ha : 0 < a) :
    0 ≤ n.tdiv a ∧ n.tdiv a ≤ n := by
  rw [Int.tdiv_eq_ediv hn (le_of_lt ha)]
  exact ⟨Int.ediv_nonneg hn (le_of_lt ha), Int.ediv_le_self a hn⟩

theorem tdiv_nonpos_of_neg {n a : Int} (hn : n < 0) (ha : 0 < a) :
    n ≤ n.tdiv a ∧ n.tdiv a ≤ 0 := by
  have h := tdiv_pos_bounds (n := -n) (a := a) (by omega) ha
  have e : n.tdiv a = -((-n).tdiv a) := by
    rw [Int.neg_tdiv, neg_neg]
  omega

theorem wrapInt_nonneg_of_tdiv_pos (x : Int) {a : Int} (ha : 0 < a)
    (hpos : 0 < (wrapInt x).tdiv a) : 0 ≤ wrapInt x := by
  by_contra hneg
  have := tdiv_nonpos_of_neg (n := wrapInt x) (a := a) (by omega) ha
  omega

theorem wrapInt_le_of_nonneg {x : Int} (hx : 0 ≤ x) (h : 0 ≤ wrapInt x) : wrapInt x ≤ x := by
  unfold wrapInt at h ⊢
  omega

theorem intDiv_pos (a : Int) {b : Int} (hb : 0 < b) : intDiv a b = .ok (a.tdiv b) := by
  have h0 : b ≠ 0 := by omega
  have h1 : b ≠ -1 := by omega
  simp [intDiv, h0, h1]

theorem intDiv_of_nonneg {a b : Int} (ha : 0 ≤ a) (hb : b ≠ 0) :
    intDiv a b = .ok (a.tdiv b) := by
  have h1 : a ≠ INT_MIN := by unfold INT_MIN; omega
  simp [intDiv, hb, h1]

theorem zoomWidth_pos (width height aspect : Int) (hw : 0 < width) :
    zoomWidth width height aspect =
      if aspect = (wrapInt (256 * height)).tdiv width then .ok width
      else intDiv (wrapInt (256 * height)) aspect := by
  simp [zoomWidth, intDiv_pos _ hw]

/-! ## Theorems on the aspect corrector -/

/-- C1 (as stated, refuted): at width 1, height 8388608 and aspect 5 the product
`256 * height` leaves the range of `int`; the reference value `256*height/aspect` is
429496729, and `zoomWidth` does not return it. -/
theorem zoomWidth_reference_fails :
    (0 : Int) < 1 ∧ (0 : Int) < 8388608 ∧ isInt 8388608 ∧ isInt 5 ∧
    Int.tdiv (256 * 8388608) 1 ≠ 5 ∧ (5 : Int) ≠ 0 ∧
    zoomWidth 1 8388608 5 ≠ .ok (Int.tdiv (256 * 8388608) 5) := by
  decide

/-- C1 (amended): for every width > 0, every height > 0 whose product `256 * height` fits in
a 32-bit `int`, and every aspect: if `256*height/width` (truncating) equals aspect then
`zoomWidth` returns width; otherwise, when aspect is not 0, it returns `256*height/aspect`
(truncating). -/
theorem zoomWidth_reference (width height aspect : Int)
    (hw : 0 < width) (hh : 0 < height) (hfit : 256 * height ≤ INT_MAX) :
    (Int.tdiv (256 * height) width = aspect → zoomWidth width height aspect = .ok width) ∧
    (Int.tdiv (256 * height) width ≠ aspect → aspect ≠ 0 →
      zoomWidth width height aspect = .ok (Int.tdiv (256 * height) aspect)) := by
  unfold INT_MAX at hfit
  have hN : wrapInt (256 * height) = 256 * height := wrapInt_eq_self (by omega) hfit
  rw [zoomWidth_pos _ _ _ hw, hN]
  constructor
  · intro h
    simp [h]
  · intro h ha
    have h2 : ¬ aspect = Int.tdiv (256 * height) width := fun e => h e.symm
    simp only [h2, if_false]
    exact intDiv_of_nonneg (by omega) ha

/-- Witness of `zoomWidth_reference` at a 720x576 source with target aspect 0x90. -/
theorem zoomWidth_reference_witness :
    ((0 : Int) < 720 ∧ (0 : Int) < 576 ∧ 256 * 576 ≤ INT_MAX) ∧
    (Int.tdiv (256 * 576) 720 = 144 → zoomWidth 720 576 144 = .ok 720) ∧
    (Int.tdiv (256 * 576) 720 ≠ 144 → (144 : Int) ≠ 0 →
      zoomWidth 720 576 144 = .ok (Int.tdiv (256 * 576) 144)) :=
  ⟨by decide, zoomWidth_reference 720 576 144 (by decide) (by decide) (by decide)⟩

/-- C9 (as stated, refuted): at width 257, height 1 and aspect 0 the computed aspect
`256*1/257` is 0, equal to the target, so `zoomWidth` returns the width and divides by
nothing. -/
theorem zoomWidth_zero_aspect_defined :
    (0 : Int) < 257 ∧ (0 : Int) < 1 ∧ zoomWidth 257 1 0 = .ok 257 := by
  decide

/-- C9 (amended): for every width > 0 and height > 0 such that `256 * height` fits in a
32-bit `int`, `zoomWidth width height 0` divides by zero exactly when
`width ≤ 256 * height` (the computed aspect is not 0) and returns width otherwise; and for
every width > 0, every height > 0 and every aspect other than 0, `zoomWidth` performs no
division by zero. -/
theorem zoomWidth_div_by_zero (width height : Int) (hw : 0 < width) (hh : 0 < height) :
    (256 * height ≤ INT_MAX →
      (zoomWidth width height 0 = .error .divByZero ↔ width ≤ 256 * height) ∧
      (256 * height < width → zoomWidth width height 0 = .ok width)) ∧
    (∀ aspect : Int, aspect ≠ 0 → zoomWidth width height aspect ≠ .error .divByZero) := by
  constructor
  · intro hfit
    unfold INT_MAX at hfit
    have hN : wrapInt (256 * height) = 256 * height := wrapInt_eq_self (by omega) hfit
    rw [zoomWidth_pos _ _ _ hw, hN, Int.tdiv_eq_ediv (by omega) (le_of_lt hw)]
    have hsmall : 256 * height < width → 256 * height / width = 0 := fun hlt =>
      Int.ediv_eq_zero_of_lt (by omega) hlt
    have hbig : width ≤ 256 * height → ¬ (0 : Int) = 256 * height / width := by
      intro hle hz
      have := (Int.le_ediv_iff_mul_le (a := 1) (b := 256 * height) hw).mpr (by omega)
      omega
    constructor
    · constructor
      · intro herr
        by_contra hlt
        rw [hsmall (by omega)] at herr
        simp at herr
      · intro hle
        simp [hbig hle, intDiv]
    · intro hlt
      simp [hsmall hlt]
  · intro aspect ha
    rw [zoomWidth_pos _ _ _ hw]
    split
    · simp
    · unfold intDiv
      simp only [ha, if_false]
      split <;> simp

/-- Witness of `zoomWidth_div_by_zero` at the default frame 1280x720. -/
theorem zoomWidth_div_by_zero_witness :
    ((0 : Int) < 1280 ∧ (0 : Int) < 720) ∧
    (256 * 720 ≤ INT_MAX →
      (zoomWidth 1280 720 0 = .error .divByZero ↔ (1280 : Int) ≤ 256 * 720) ∧
      (256 * 720 < (1280 : Int) → zoomWidth 1280 720 0 = .ok 1280)) ∧
    (∀ aspect : Int, aspect ≠ 0 → zoomWidth 1280 720 aspect ≠ .error .divByZero) :=
  ⟨by decide, zoomWidth_div_by_zero 1280 720 (by decide) (by decide)⟩

/-- C10: `zoomWidth` is idempotent in its width argument: for width, height, aspect > 0, when
`zoomWidth width height aspect` returns a positive `w2`, `zoomWidth w2 height aspect`
returns `w2` again. -/
theorem zoomWidth_idempotent (width height aspect w2 : Int)
    (hw : 0 < width) (_hh : 0 < height) (_ha : 0 < aspect)
    (hz : zoomWidth width height aspect = .ok w2) (hpos : 0 < w2) :
    zoomWidth w2 height aspect = .ok w2 := by
  rw [zoomWidth_pos _ _ _ hw] at hz
  rw [zoomWidth_pos _ _ _ hpos]
  split at hz
  · have e : width = w2 := by simpa using hz
    subst e
    rename_i hc
    simp [hc]
  · split
    · rfl
    · exact hz

/-- Witness of `zoomWidth_idempotent`: a 720x576 source with target aspect 0x90 is corrected
to width 1024, and correcting 1024 again changes nothing. -/
theorem zoomWidth_idempotent_witness :
    ((0 : Int) < 720 ∧ (0 : Int) < 576 ∧ (0 : Int) < 144 ∧
      zoomWidth 720 576 144 = .ok 1024 ∧ (0 : Int) < 1024) ∧
    zoomWidth 1024 576 144 = .ok 1024 :=
  ⟨by decide, zoomWidth_idempotent 720 576 144 1024 (by decide) (by decide) (by decide)
    (by decide) (by decide)⟩

/-- C8 (as stated, refuted): at width 1, height 1 and aspect 100 the corrected width is
`256/100 = 2`, positive, and the aspect recomputed from it is `256/2 = 128`, not 100. -/
theorem zoomWidth_aspect_not_forced :
    (0 : Int) < 1 ∧ (0 : Int) < 100 ∧ zoomWidth 1 1 100 = .ok 2 ∧ (0 : Int) < 2 ∧
    Int.tdiv (256 * 1) 2 ≠ 100 := by
  decide

/-- C8 (amended): for width, height, aspect > 0, when `zoomWidth width height aspect` returns
a positive `w2`, the aspect recomputed from the corrected width, `256*height/w2`
(truncating), is at least aspect; and when `256 * height` fits in a 32-bit `int` it equals
aspect exactly when the width already had the target aspect (`256*height/width = aspect`)
or the remainder of `256 * height` by aspect is below `w2`, in particular whenever
`aspect ≤ w2`. -/
theorem zoomWidth_recomputed_aspect (width height aspect w2 : Int)
    (hw : 0 < width) (hh : 0 < height) (ha : 0 < aspect)
    (hz : zoomWidth width height aspect = .ok w2) (hpos : 0 < w2) :
    aspect ≤ Int.tdiv (256 * height) w2 ∧
    (256 * height ≤ INT_MAX →
      (Int.tdiv (256 * height) w2 = aspect ↔
        (Int.tdiv (256 * height) width = aspect ∨ 256 * height % aspect < w2)) ∧
      (aspect ≤ w2 → Int.tdiv (256 * height) w2 = aspect)) := by
  have ha0 : aspect ≠ 0 := by omega
  have hN0 : (0 : Int) ≤ 256 * height := by omega
  have hrem : 256 * height % aspect < aspect := Int.emod_lt_of_pos _ ha
  have hrem0 : 0 ≤ 256 * height % aspect := Int.emod_nonneg _ ha0
  rw [zoomWidth_pos _ _ _ hw] at hz
  split at hz
  · -- the width is returned unchanged
    rename_i hc
    have e : width = w2 := by simpa using hz
    subst e
    have hNn : 0 ≤ wrapInt (256 * height) :=
      wrapInt_nonneg_of_tdiv_pos _ hw (by omega)
    have hle : wrapInt (256 * height) ≤ 256 * height := wrapInt_le_of_nonneg hN0 hNn
    rw [Int.tdiv_eq_ediv hNn (le_of_lt hw)] at hc
    rw [Int.tdiv_eq_ediv hN0 (le_of_lt hw)]
    constructor
    · rw [hc]
      exact Int.ediv_le_ediv hw hle
    · intro hfit
      unfold INT_MAX at hfit
      rw [wrapInt_eq_self (by omega) hfit] at hc
      exact ⟨⟨fun h => Or.inl h, fun _ => hc.symm⟩, fun _ => hc.symm⟩
  · -- the width is recomputed from the target aspect
    rename_i hc
    rw [intDiv_pos _ ha] at hz
    have e : (wrapInt (256 * height)).tdiv aspect = w2 := by simpa using hz
    have hNn : 0 ≤ wrapInt (256 * height) :=
      wrapInt_nonneg_of_tdiv_pos _ ha (by omega)
    have hle : wrapInt (256 * height) ≤ 256 * height := wrapInt_le_of_nonneg hN0 hNn
    rw [Int.tdiv_eq_ediv hNn (le_of_lt ha)] at e
    rw [Int.tdiv_eq_ediv hN0 (le_of_lt hpos)]
    have hmul : w2 * aspect ≤ wrapInt (256 * height) := by
      rw [← e]
      exact Int.ediv_mul_le _ ha0
    constructor
    · rw [Int.le_ediv_iff_mul_le hpos]
      calc aspect * w2 = w2 * aspect := mul_comm _ _
        _ ≤ wrapInt (256 * height) := hmul
        _ ≤ 256 * height := hle
    · intro hfit
      unfold INT_MAX at hfit
      have hN : wrapInt (256 * height) = 256 * height := wrapInt_eq_self (by omega) hfit
      rw [hN] at e hc
      rw [Int.tdiv_eq_ediv hN0 (le_of_lt hw)]
      have hsplit : aspect * w2 + 256 * height % aspect = 256 * height := by
        rw [← e]
        exact Int.ediv_add_emod _ _
      have hexp : (aspect + 1) * w2 = aspect * w2 + w2 := by ring
      have hiff : 256 * height / w2 = aspect ↔ 256 * height % aspect < w2 := by
        constructor
        · intro heq
          have h1 : 256 * height / w2 < aspect + 1 := by omega
          rw [Int.ediv_lt_iff_lt_mul hpos, hexp] at h1
          omega
        · intro hlt
          have h1 : aspect ≤ 256 * height / w2 := by
            rw [Int.le_ediv_iff_mul_le hpos]
            omega
          have h2 : 256 * height / w2 < aspect + 1 := by
            rw [Int.ediv_lt_iff_lt_mul hpos, hexp]
            omega
          omega
      refine ⟨⟨fun h => Or.inr (hiff.mp h), fun h => ?_⟩, fun hle2 => hiff.mpr (by omega)⟩
      rcases h with hsame | hlt
      · rw [Int.tdiv_eq_ediv hN0 (le_of_lt hw)] at hc
        exact absurd hsame.symm hc
      · exact hiff.mpr hlt

/-- Witness of `zoomWidth_recomputed_aspect`: a 720x576 source with target aspect 0x90 is
corrected to width 1024, whose recomputed aspect is exactly 0x90. -/
theorem zoomWidth_recomputed_aspect_witness :
    ((0 : Int) < 720 ∧ (0 : Int) < 576 ∧ (0 : Int) < 144 ∧
      zoomWidth 720 576 144 = .ok 1024 ∧ (0 : Int) < 1024) ∧
    (144 : Int) ≤ Int.tdiv (256 * 576) 1024 ∧
    (256 * 576 ≤ INT_MAX →
      (Int.tdiv (256 * 576) 1024 = 144 ↔
        (Int.tdiv (256 * 576) 720 = 144 ∨ 256 * 576 % 144 < (1024 : Int))) ∧
      ((144 : Int) ≤ 1024 → Int.tdiv (256 * 576) 1024 = 144)) :=
  ⟨by decide, zoomWidth_recomputed_aspect 720 576 144 1024 (by decide) (by decide)
    (by decide) (by decide) (by decide)⟩

/-! ## Theorems on the configuration loader -/

/-- C6: `readIntFromFile` returns -1 exactly when the path cannot be opened or the base is
neither 10 nor 16; in every such call the output slot keeps its pre-call value; in all
other calls it returns 0. -/
theorem readIntFromFile_error_indicator (fs : FileSys) (path : String) (base out : Int) :
    ((readIntFromFile fs path base out).ret = -1 ↔
      (fs.fopenRead path = none ∨ (base ≠ 10 ∧ base ≠ 16))) ∧
    ((readIntFromFile fs path base out).ret = -1 →
      (readIntFromFile fs path base out).out = out) ∧
    ((readIntFromFile fs path base out).ret ≠ -1 →
      (readIntFromFile fs path base out).ret = 0) := by
  unfold readIntFromFile
  cases hf : fs.fopenRead path with
  | none => simp
  | some text =>
    by_cases h10 : base = 10
    · simp [h10]
    · by_cases h16 : base = 16
      · simp [h16]
      · simp [h10, h16]

/-- C7 (the code at the failing input): with base 8 on a file that opens, `readIntFromFile`
returns -1 after one successful `fopen` and no `fclose`. -/
theorem readIntFromFile_leaks_on_bad_base :
    (readIntFromFile pal43Files "/sys/class/video/frame_width" 8 1280).ret = -1 ∧
    (readIntFromFile pal43Files "/sys/class/video/frame_width" 8 1280).trace =
      [.fopened "/sys/class/video/frame_width" "r" true] ∧
    fopenCount (readIntFromFile pal43Files "/sys/class/video/frame_width" 8 1280).trace = 1 ∧
    fcloseCount (readIntFromFile pal43Files "/sys/class/video/frame_width" 8 1280).trace = 0 := by
  decide

/-! ## Theorems on the mapped-frame path -/

/-- C4: whenever the device opens and the setup control call fails, `mapSingleFrame` returns
-1 without a get-frame call, an `mmap`, an `fopen` of the output file or an `fwrite`, and
the session handle is closed exactly once (the only `close` of the call). -/
theorem mapSingleFrame_setup_failure (env : Session) (path : String) (width height : Int)
    (hopen : 0 ≤ env.openRet) (hsetup : env.setupRet < 0) :
    (mapSingleFrame env path width height).ret = -1 ∧
    issuesGetFrame (mapSingleFrame env path width height).trace = false ∧
    issuesMmap (mapSingleFrame env path width height).trace = false ∧
    opensDump path (mapSingleFrame env path width height).trace = false ∧
    writesDump (mapSingleFrame env path width height).trace = false ∧
    closeCount env.openRet (mapSingleFrame env path width height).trace = 1 ∧
    closeCalls (mapSingleFrame env path width height).trace = 1 := by
  have h1 : ¬ env.openRet < 0 := by omega
  simp [mapSingleFrame, mapSingleFrameErr, h1, hsetup, hopen, issuesGetFrame, issuesMmap,
    opensDump, writesDump, closeCount, closeCalls]

/-- Witness of `mapSingleFrame_setup_failure` on a session whose setup call returns -1. -/
theorem mapSingleFrame_setup_failure_witness :
    ((0 : Int) ≤ setupFailSession.openRet ∧ setupFailSession.setupRet < 0) ∧
    (mapSingleFrame setupFailSession "/tmp/dump1.abgr8888" 1280 720).ret = -1 ∧
    issuesGetFrame (mapSingleFrame setupFailSession "/tmp/dump1.abgr8888" 1280 720).trace
      = false ∧
    issuesMmap (mapSingleFrame setupFailSession "/tmp/dump1.abgr8888" 1280 720).trace
      = false ∧
    opensDump "/tmp/dump1.abgr8888"
      (mapSingleFrame setupFailSession "/tmp/dump1.abgr8888" 1280 720).trace = false ∧
    writesDump (mapSingleFrame setupFailSession "/tmp/dump1.abgr8888" 1280 720).trace
      = false ∧
    closeCount setupFailSession.openRet
      (mapSingleFrame setupFailSession "/tmp/dump1.abgr8888" 1280 720).trace = 1 ∧
    closeCalls (mapSingleFrame setupFailSession "/tmp/dump1.abgr8888" 1280 720).trace = 1 :=
  ⟨by decide, mapSingleFrame_setup_failure setupFailSession "/tmp/dump1.abgr8888" 1280 720
    (by decide) (by decide)⟩

/-- C3 (the code at the failing inputs): when every call succeeds `mapSingleFrame` returns 0
having closed the device handle twice; when the output file cannot be opened it returns -1
with the mapping established and never unmapped. -/
theorem mapSingleFrame_release_defects :
    ((mapSingleFrame okSession "/tmp/dump1.abgr8888" 1280 720).ret = 0 ∧
      openCount (mapSingleFrame okSession "/tmp/dump1.abgr8888" 1280 720).trace = 1 ∧
      closeCount 3 (mapSingleFrame okSession "/tmp/dump1.abgr8888" 1280 720).trace = 2 ∧
      unmapCount (mapSingleFrame okSession "/tmp/dump1.abgr8888" 1280 720).trace = 1) ∧
    ((mapSingleFrame noDumpSession "/tmp/dump1.abgr8888" 1280 720).ret = -1 ∧
      mapCount (mapSingleFrame noDumpSession "/tmp/dump1.abgr8888" 1280 720).trace = 1 ∧
      unmapCount (mapSingleFrame noDumpSession "/tmp/dump1.abgr8888" 1280 720).trace = 0 ∧
      closeCount 3 (mapSingleFrame noDumpSession "/tmp/dump1.abgr8888" 1280 720).trace = 1) := by
  decide

/-! ## Theorems on the buffered-read path -/

/-- C2 (as stated, refuted): on a 2x2 frame (16 bytes expected) a read that returns 1 byte is
a short read, yet `readSingleFrame` returns 0 and writes the dump. -/
theorem readSingleFrame_short_read_accepted :
    shortReadSession.readRet < 4 * 2 * 2 ∧
    (readSingleFrame shortReadSession "/tmp/dump2.abgr8888" 2 2).ret = 0 ∧
    opensDump "/tmp/dump2.abgr8888"
      (readSingleFrame shortReadSession "/tmp/dump2.abgr8888" 2 2).trace = true ∧
    writesDump (readSingleFrame shortReadSession "/tmp/dump2.abgr8888" 2 2).trace = true := by
  decide

/-- C2 (amended): in `readSingleFrame`, once the device is opened and set up and the buffer
allocated, for every width and height and every byte count `n ≤ 0` returned by the blocking
read (a zero read or a read error) the path returns -1 and neither opens nor writes the
dump; and for every byte count whatsoever the buffer is allocated once and freed exactly
once (the only `free` of the call). -/
theorem readSingleFrame_failed_read (env : Session) (path : String) (width height : Int)
    (hopen : 0 ≤ env.openRet) (hsetup : 0 ≤ env.setupRet) (hbuf : env.mallocRet ≠ 0) :
    (env.readRet ≤ 0 →
      (readSingleFrame env path width height).ret = -1 ∧
      opensDump path (readSingleFrame env path width height).trace = false ∧
      writesDump (readSingleFrame env path width height).trace = false) ∧
    allocCount (readSingleFrame env path width height).trace = 1 ∧
    freeCount env.mallocRet (readSingleFrame env path width height).trace = 1 ∧
    freeCalls (readSingleFrame env path width height).trace = 1 := by
  have h1 : ¬ env.openRet < 0 := by omega
  have h2 : ¬ env.setupRet < 0 := by omega
  by_cases hr : env.readRet ≤ 0
  · simp [readSingleFrame, readSingleFrameErr, h1, h2, hbuf, hr, hopen, opensDump,
      writesDump, allocCount, freeCount, freeCalls]
  · cases hd : env.dumpOpens <;>
      simp [readSingleFrame, readSingleFrameErr, h1, h2, hbuf, hr, hd, hopen, opensDump,
        writesDump, allocCount, freeCount, freeCalls]

/-- Witness of `readSingleFrame_failed_read` on a session whose read returns 0 bytes. -/
theorem readSingleFrame_failed_read_witness :
    ((0 : Int) ≤ zeroReadSession.openRet ∧ (0 : Int) ≤ zeroReadSession.setupRet ∧
      zeroReadSession.mallocRet ≠ 0 ∧ zeroReadSession.readRet ≤ 0) ∧
    (zeroReadSession.readRet ≤ 0 →
      (readSingleFrame zeroReadSession "/tmp/dump2.abgr8888" 1280 720).ret = -1 ∧
      opensDump "/tmp/dump2.abgr8888"
        (readSingleFrame zeroReadSession "/tmp/dump2.abgr8888" 1280 720).trace = false ∧
      writesDump (readSingleFrame zeroReadSession "/tmp/dump2.abgr8888" 1280 720).trace
        = false) ∧
    allocCount (readSingleFrame zeroReadSession "/tmp/dump2.abgr8888" 1280 720).trace = 1 ∧
    freeCount zeroReadSession.mallocRet
      (readSingleFrame zeroReadSession "/tmp/dump2.abgr8888" 1280 720).trace = 1 ∧
    freeCalls (readSingleFrame zeroReadSession "/tmp/dump2.abgr8888" 1280 720).trace = 1 :=
  ⟨by decide, readSingleFrame_failed_read zeroReadSession "/tmp/dump2.abgr8888" 1280 720
    (by decide) (by decide) (by decide)⟩

/-! ## Theorems on the orchestrator -/

/-- C5 (as stated, refuted): when the aspect file holds `0` and the two other files are
absent, `main` loads 1280, 720 and 0, and stops in `zoomWidth` at the division by the
aspect: no exit status, and no call of either acquisition path. -/
theorem main_stops_on_zero_aspect :
    loadConfig zeroAspectFiles =
      (1280, 720, 0,
        [.fopened "/sys/class/video/frame_width" "r" false,
         .fopened "/sys/class/video/frame_height" "r" false,
         .fopened "/sys/class/video/frame_aspect_ratio" "r" true,
         .scanned "/sys/class/video/frame_aspect_ratio" "%x" (some 0),
         .fclosed "/sys/class/video/frame_aspect_ratio"]) ∧
    zoomWidth 1280 720 0 = .error .divByZero ∧
    (main zeroAspectFiles okSession okSession).exit = none ∧
    openCount (main zeroAspectFiles okSession okSession).trace = 0 := by
  decide

/-- C5 (amended): for every content of the three configuration files on which `zoomWidth`
returns a width for the loaded width, height and aspect, and for every outcome of the two
acquisition paths, `main` returns exit status 0 after the calls of the three loads, of
`mapSingleFrame`, of its report, of `readSingleFrame` and of its report, in this order,
both paths run on the corrected width and whatever the first one returned. -/
theorem main_runs_both_paths (fs : FileSys) (mapEnv readEnv : Session) (width : Int)
    (hz : zoomWidth (loadConfig fs).1 (loadConfig fs).2.1 (loadConfig fs).2.2.1
      = .ok width) :
    (main fs mapEnv readEnv).exit = some 0 ∧
    (main fs mapEnv readEnv).trace =
      (loadConfig fs).2.2.2
        ++ (mapSingleFrame mapEnv "/tmp/dump1.abgr8888" width (loadConfig fs).2.1).trace
        ++ mapReport (mapSingleFrame mapEnv "/tmp/dump1.abgr8888" width
            (loadConfig fs).2.1).ret "/tmp/dump1.abgr8888" width (loadConfig fs).2.1
        ++ (readSingleFrame readEnv "/tmp/dump2.abgr8888" width (loadConfig fs).2.1).trace
        ++ readReport (readSingleFrame readEnv "/tmp/dump2.abgr8888" width
            (loadConfig fs).2.1).ret "/tmp/dump2.abgr8888" width (loadConfig fs).2.1 := by
  simp [main, hz]

/-- Witness of `main_runs_both_paths`: no configuration file exists, the defaults 1280, 720
and 0x90 are kept, `zoomWidth` returns 1280, and the setup call of the first path fails. -/
theorem main_runs_both_paths_witness :
    zoomWidth (loadConfig noFiles).1 (loadConfig noFiles).2.1 (loadConfig noFiles).2.2.1
      = .ok 1280 ∧
    (mapSingleFrame setupFailSession "/tmp/dump1.abgr8888" 1280 720).ret = -1 ∧
    (main noFiles setupFailSession okSession).exit = some 0 ∧
    (main noFiles setupFailSession okSession).trace =
      (loadConfig noFiles).2.2.2
        ++ (mapSingleFrame setupFailSession "/tmp/dump1.abgr8888" 1280
            (loadConfig noFiles).2.1).trace
        ++ mapReport (mapSingleFrame setupFailSession "/tmp/dump1.abgr8888" 1280
            (loadConfig noFiles).2.1).ret "/tmp/dump1.abgr8888" 1280
            (loadConfig noFiles).2.1
        ++ (readSingleFrame okSession "/tmp/dump2.abgr8888" 1280
            (loadConfig noFiles).2.1).trace
        ++ readReport (readSingleFrame okSession "/tmp/dump2.abgr8888" 1280
            (loadConfig noFiles).2.1).ret "/tmp/dump2.abgr8888" 1280
            (loadConfig noFiles).2.1 :=
  ⟨by decide, by decide,
    main_runs_both_paths noFiles setupFailSession okSession 1280 (by decide)⟩

end VideoGrabber
